import Mathlib

/-!
Shallow embedding of the rusty_lidar_viewer driver (src/src/main.rs):
the frame codec (`new`, `calculate_checksum`, `as_bytes`), the
`read_frame` validation and retry loop, and the point-cloud unpack loop
from `main`. Bytes are modelled as `Nat` (values `< 256` where it
matters); `u16` casts are explicit `% 65536`; `u8` shifts that wrap are
explicit `% 256`.
-/

namespace RustyLidar

/-- A protocol frame, mirroring `struct Frame` in main.rs: a 3-byte
header, a `u16` size, a byte payload, and a `u8` checksum. -/
structure Frame where
  header : List Nat
  size : Nat
  payload : List Nat
  checksum : Nat
deriving DecidableEq

/-- The 3-byte magic constant `[0x5a, 0x77, 0xff]`. -/
def magic : List Nat := [0x5a, 0x77, 0xff]

/-- Little-endian bytes of a `u16` value. -/
def u16le (n : Nat) : List Nat := [n % 256, n / 2 ^ 8 % 256]

/-- Little-endian bytes of a `u64` value (bincode's fixed-width
length encoding for `Vec<u8>`). -/
def u64le (n : Nat) : List Nat :=
  [n % 256, n / 2 ^ 8 % 256, n / 2 ^ 16 % 256, n / 2 ^ 24 % 256,
   n / 2 ^ 32 % 256, n / 2 ^ 40 % 256, n / 2 ^ 48 % 256, n / 2 ^ 56 % 256]

/-- `bincode::serialize(&frame)` with bincode v1 defaults (fixed-width
ints, little-endian): the `[u8;3]` header raw, the `u16` size as 2 LE
bytes, the `Vec<u8>` payload as a `u64` LE length followed by the raw
bytes, and the `u8` checksum. -/
def bincodeSerialize (f : Frame) : List Nat :=
  f.header ++ u16le f.size ++ u64le f.payload.length ++ f.payload ++ [f.checksum]

/-- `Vec::drain(a..b)` on a byte vector: remove indices `[a, b)`. -/
def drainRange (l : List Nat) (a b : Nat) : List Nat := l.take a ++ l.drop b

/-- `Frame::calculate_checksum`: serialize, drain the serializer's
length bytes (8 of them when `size <= 7`, only 2 when `size > 7`),
then XOR-fold the bytes strictly between the header and the trailing
checksum byte. (The `Err` branch of the Rust function fires only when
bincode serialization fails, which cannot happen for this in-memory
struct, so the model is total.) -/
def calculate_checksum (f : Frame) : Nat :=
  let bytes := bincodeSerialize f
  let bytes2 := if f.size ≤ 7 then drainRange bytes 5 (5 + 8) else drainRange bytes 5 (5 + 2)
  let interesting := (bytes2.drop 3).dropLast
  interesting.foldl (fun sum b => sum ^^^ b) 0

/-- `fn new(payload)`: build the frame with the magic header,
`size = payload.len() as u16` (a truncating cast, modelled `% 65536`),
checksum 0, then overwrite the checksum with `calculate_checksum`. -/
def new (payload : List Nat) : Frame :=
  let f : Frame :=
    { header := magic, size := payload.length % 65536, payload := payload, checksum := 0 }
  { f with checksum := calculate_checksum f }

/-- `Frame::as_bytes`: serialize and drain bytes 5..13 (the 8-byte
length field), leaving `header ++ size_le ++ payload ++ [checksum]`. -/
def as_bytes (f : Frame) : List Nat := drainRange (bincodeSerialize f) 5 13

/-- The distinct validation-failure branches of `read_frame`'s decode
step, in source order: header mismatch, size mismatch, checksum
mismatch. (The `bincode::deserialize` failure branch for the size field
is unreachable: the slice `frame[3..5]` is always exactly 2 bytes and a
`u16` always deserializes from 2 bytes.) -/
inductive DecodeErr where
  | badMagic : DecodeErr
  | badSize : DecodeErr
  | badChecksum : DecodeErr
deriving DecidableEq

/-- The validation half of `read_frame` (lines 93-114), instrumented so
that each distinct failure branch carries its own tag: build
`frame_obj = new(frame[5..payload_size+5])`, check the received header
against the magic, deserialize the LE `u16` at bytes 3..5 and compare
with `payload_size`, then compare the recomputed checksum with the
trailing byte. -/
def decodeFrameT (frame : List Nat) (payload_size : Nat) : Except DecodeErr Frame :=
  let frame_obj := new ((frame.drop 5).take payload_size)
  if frame_obj.header ≠ frame.take 3 then
    Except.error DecodeErr.badMagic
  else
    let size := frame.getD 3 0 + 256 * frame.getD 4 0
    if size ≠ payload_size then
      Except.error DecodeErr.badSize
    else
      let checksum := frame.getD (frame.length - 1) 0
      if frame_obj.checksum ≠ checksum then
        Except.error DecodeErr.badChecksum
      else
        Except.ok frame_obj

/-- The validation half of `read_frame` exactly as the code has it:
every failure branch returns the same unit error `Err(())`. -/
def decodeFrame (frame : List Nat) (payload_size : Nat) : Except Unit Frame :=
  let frame_obj := new ((frame.drop 5).take payload_size)
  if frame_obj.header ≠ frame.take 3 then
    Except.error ()
  else
    let size := frame.getD 3 0 + 256 * frame.getD 4 0
    if size ≠ payload_size then
      Except.error ()
    else
      let checksum := frame.getD (frame.length - 1) 0
      if frame_obj.checksum ≠ checksum then
        Except.error ()
      else
        Except.ok frame_obj

/-- Outcome of one `serial_port.read_exact` attempt: a timeout, a fatal
(non-timeout) I/O error, or a successful full-buffer read. -/
inductive ReadResult where
  | timeout : ReadResult
  | fatal : ReadResult
  | ok : List Nat → ReadResult

/-- The `read_frame` retry loop over a stream of modelled read
attempts, counting attempts issued: a timeout logs and retries, a fatal
error returns `Err(())` at once, a successful read is validated and its
result (ok or error) returned. `none` means every modelled attempt
timed out and the loop is still running. -/
def read_frame_go (ps : Nat) (n : Nat) : List ReadResult → Option (Except Unit Frame × Nat)
  | [] => none
  | ReadResult.timeout :: rest => read_frame_go ps (n + 1) rest
  | ReadResult.fatal :: _ => some (Except.error (), n + 1)
  | ReadResult.ok bytes :: _ => some (decodeFrame bytes ps, n + 1)

/-- `read_frame` over a modelled transport: run the retry loop from
attempt count 0. -/
def read_frame_model (attempts : List ReadResult) (ps : Nat) : Option (Except Unit Frame × Nat) :=
  read_frame_go ps 0 attempts

/-- `point_cloud_3d_size = 160 * 60` from `main`. -/
def point_cloud_3d_size : Nat := 160 * 60

/-- The unpack loop body of `main` (lines 197-209): while the sample
index is below 9600 and the byte index is below `payload.len() - 3`,
read three bytes, write `first | ((second & 0xf) << 8)` at the current
sample, advance the sample index once, write
`((second & 0xf) >> 4) | ((third << 4) as u8 as u16)` at the next
sample, and loop with the byte index advanced by 3 — the sample index
is not advanced a second time, exactly as in the source. The `u8`
shift `third << 4` wraps, hence the `% 256`. -/
def unpackGo (payload : List Nat) (pc : List Nat) (iter_frame iter_point_cloud : Nat) :
    List Nat :=
  if h : iter_point_cloud < point_cloud_3d_size ∧ iter_frame < payload.length - 3 then
    let first := payload.getD iter_frame 0
    let second := payload.getD (iter_frame + 1) 0
    let third := payload.getD (iter_frame + 2) 0
    let pc1 := pc.set iter_point_cloud (first ||| ((second &&& 0xf) <<< 8))
    let pc2 := pc1.set (iter_point_cloud + 1)
      (((second &&& 0xf) >>> 4) ||| ((third <<< 4) % 256))
    unpackGo payload pc2 (iter_frame + 3) (iter_point_cloud + 1)
  else
    pc
termination_by payload.length - iter_frame
decreasing_by omega

/-- The point-cloud unpack of one streamed frame payload: start from a
fresh `[0u16; 9600]` array and run the loop from indices 0, 0. -/
def unpack (payload : List Nat) : List Nat :=
  unpackGo payload (List.replicate point_cloud_3d_size 0) 0 0


lemma drain_5_13_cons (a b c d e : Nat) (l : List Nat) :
    drainRange (a :: b :: c :: d :: e :: l) 5 (5 + 8) = a :: b :: c :: d :: e :: l.drop 8 := rfl

lemma drain_5_7_cons (a b c d e : Nat) (l : List Nat) :
    drainRange (a :: b :: c :: d :: e :: l) 5 (5 + 2) = a :: b :: c :: d :: e :: l.drop 2 := rfl

lemma checksum_new (p : List Nat) (h : p.length ≤ 65535) :
    (new p).checksum = (u16le p.length ++ p).foldl (fun sum b => sum ^^^ b) 0 := by
  have hm : p.length % 65536 = p.length := Nat.mod_eq_of_lt (by omega)
  show calculate_checksum _ = _
  unfold calculate_checksum bincodeSerialize
  simp only [magic, u16le, u64le, hm, List.cons_append, List.nil_append]
  by_cases hs : p.length ≤ 7
  · rw [if_pos hs, drain_5_13_cons]
    have h8 : (p.length % 256 :: p.length / 2 ^ 8 % 256 :: p.length / 2 ^ 16 % 256 ::
        p.length / 2 ^ 24 % 256 :: p.length / 2 ^ 32 % 256 :: p.length / 2 ^ 40 % 256 ::
        p.length / 2 ^ 48 % 256 :: p.length / 2 ^ 56 % 256 :: (p ++ [0])).drop 8 = p ++ [0] := rfl
    rw [h8]
    show ((p.length % 256 :: p.length / 2 ^ 8 % 256 :: (p ++ [0])).dropLast).foldl _ 0 = _
    rw [show p.length % 256 :: p.length / 2 ^ 8 % 256 :: (p ++ [0]) =
        (p.length % 256 :: p.length / 2 ^ 8 % 256 :: p) ++ [0] by simp,
      List.dropLast_concat]
  · rw [if_neg hs, drain_5_7_cons]
    have h2 : (p.length % 256 :: p.length / 2 ^ 8 % 256 :: p.length / 2 ^ 16 % 256 ::
        p.length / 2 ^ 24 % 256 :: p.length / 2 ^ 32 % 256 :: p.length / 2 ^ 40 % 256 ::
        p.length / 2 ^ 48 % 256 :: p.length / 2 ^ 56 % 256 :: (p ++ [0])).drop 2 =
        p.length / 2 ^ 16 % 256 :: p.length / 2 ^ 24 % 256 :: p.length / 2 ^ 32 % 256 ::
        p.length / 2 ^ 40 % 256 :: p.length / 2 ^ 48 % 256 :: p.length / 2 ^ 56 % 256 ::
        (p ++ [0]) := rfl
    rw [h2]
    have hz : ∀ k, 16 ≤ k → p.length / 2 ^ k % 256 = 0 := by
      intro k hk
      have : p.length < 2 ^ k :=
        lt_of_le_of_lt h (lt_of_lt_of_le (by norm_num) (Nat.pow_le_pow_right (by norm_num) hk))
      simp [Nat.div_eq_of_lt this]
    rw [hz 16 (by norm_num), hz 24 (by norm_num), hz 32 (by norm_num), hz 40 (by norm_num),
      hz 48 (by norm_num), hz 56 (by norm_num)]
    show ((p.length % 256 :: p.length / 2 ^ 8 % 256 :: 0 :: 0 :: 0 :: 0 :: 0 :: 0 ::
        (p ++ [0])).dropLast).foldl _ 0 = _
    rw [show p.length % 256 :: p.length / 2 ^ 8 % 256 :: 0 :: 0 :: 0 :: 0 :: 0 :: 0 ::
        (p ++ [0]) = (p.length % 256 :: p.length / 2 ^ 8 % 256 :: 0 :: 0 :: 0 :: 0 :: 0 ::
        0 :: p) ++ [0] by simp, List.dropLast_concat]
    simp [List.foldl_cons, Nat.xor_zero]


/-- Claim C1: for every payload of length at most 65535, the checksum
stored by frame construction (`new` / `calculate_checksum`) equals the
XOR of the two little-endian size-field bytes concatenated with the
payload bytes, header and checksum byte excluded — identically for
both serializer-padding branches (`size <= 7` drains all 8 length
bytes; `size > 7` drains 2 and XORs in 6 zero bytes, which is the
identity). -/
theorem C1_checksum_is_xor_of_size_and_payload (p : List Nat) (h : p.length ≤ 65535) :
    (new p).checksum = (u16le p.length ++ p).foldl (fun sum b => sum ^^^ b) 0 :=
  checksum_new p h

/-- Witness for C1 at a short payload (size-at-most-7 branch) and at an
8-byte payload (size-above-7 branch). -/
theorem C1_checksum_is_xor_of_size_and_payload_witness :
    (List.length [0x12, 0x55] ≤ 65535 ∧
      (new [0x12, 0x55]).checksum =
        (u16le 2 ++ [0x12, 0x55]).foldl (fun sum b => sum ^^^ b) 0) ∧
    (List.length [1, 2, 3, 4, 5, 6, 7, 8] ≤ 65535 ∧
      (new [1, 2, 3, 4, 5, 6, 7, 8]).checksum =
        (u16le 8 ++ [1, 2, 3, 4, 5, 6, 7, 8]).foldl (fun sum b => sum ^^^ b) 0) :=
  ⟨⟨by decide, C1_checksum_is_xor_of_size_and_payload [0x12, 0x55] (by decide)⟩,
   ⟨by decide, C1_checksum_is_xor_of_size_and_payload [1, 2, 3, 4, 5, 6, 7, 8] (by decide)⟩⟩


lemma drop8_cons (x0 x1 x2 x3 x4 x5 x6 x7 : Nat) (l : List Nat) :
    (x0 :: x1 :: x2 :: x3 :: x4 :: x5 :: x6 :: x7 :: l).drop 8 = l := rfl

lemma drain_5_13_cons' (a b c d e : Nat) (l : List Nat) :
    drainRange (a :: b :: c :: d :: e :: l) 5 13 = a :: b :: c :: d :: e :: l.drop 8 := rfl

lemma as_bytes_eq (f : Frame) (a b c : Nat) (hh : f.header = [a, b, c]) :
    as_bytes f = f.header ++ u16le f.size ++ f.payload ++ [f.checksum] := by
  unfold as_bytes bincodeSerialize
  rw [hh]
  simp only [u16le, u64le, List.cons_append, List.nil_append]
  rw [drain_5_13_cons', drop8_cons]

lemma as_bytes_new (p : List Nat) (h : p.length ≤ 65535) :
    as_bytes (new p) = magic ++ u16le p.length ++ p ++ [(new p).checksum] := by
  have hm : p.length % 65536 = p.length := Nat.mod_eq_of_lt (by omega)
  have := as_bytes_eq (new p) 0x5a 0x77 0xff rfl
  rw [this]
  show magic ++ u16le (p.length % 65536) ++ p ++ [(new p).checksum] = _
  rw [hm]

lemma length_as_bytes_new (p : List Nat) (h : p.length ≤ 65535) :
    (as_bytes (new p)).length = p.length + 6 := by
  rw [as_bytes_new p h]
  simp [magic, u16le]

/-- Claim C7: for every frame with payload length at most 65535 that
satisfies the Frame invariants (magic header, size equal to payload
length), `as_bytes` serializes exactly to
`header(3) ++ size_le(2) ++ payload ++ checksum(1)`, a total of
`size + 6` bytes. -/
theorem C7_as_bytes_layout (f : Frame) (hh : f.header = magic)
    (hs : f.size = f.payload.length) (_hp : f.payload.length ≤ 65535) :
    as_bytes f = magic ++ u16le f.size ++ f.payload ++ [f.checksum] ∧
      (as_bytes f).length = f.size + 6 := by
  have heq := as_bytes_eq f 0x5a 0x77 0xff (by rw [hh]; rfl)
  rw [hh] at heq
  refine ⟨heq, ?_⟩
  rw [heq]
  simp [magic, u16le]
  omega

/-- Witness for C7 at the frame built from the 2-byte SetBaud payload. -/
theorem C7_as_bytes_layout_witness :
    as_bytes (new [0x12, 0x55]) =
        magic ++ u16le (new [0x12, 0x55]).size ++ [0x12, 0x55] ++ [(new [0x12, 0x55]).checksum] ∧
      (as_bytes (new [0x12, 0x55])).length = (new [0x12, 0x55]).size + 6 :=
  C7_as_bytes_layout (new [0x12, 0x55]) (by decide) (by decide) (by decide)

lemma new_size (p : List Nat) : (new p).size = p.length % 65536 := rfl

lemma new_payload (p : List Nat) : (new p).payload = p := rfl

/-- Counterexample for C6: at a payload of 65536 zero bytes (length
strictly greater than 65535), `new` does not fail with
`PayloadTooLarge` — it succeeds, silently truncating the size field to
`65536 % 65536 = 0`. -/
theorem C6_counterexample_no_payload_too_large :
    (new (List.replicate 65536 0)).size = 0 ∧
      (new (List.replicate 65536 0)).payload.length = 65536 := by
  constructor
  · rw [new_size, List.length_replicate]
  · rw [new_payload, List.length_replicate]

/-- Claim C6 as amended: frame construction (`new`) is total — it
succeeds for every payload, storing `size = length mod 65536` (so for
lengths up to 65535 the size field equals the length, and longer
payloads are silently truncated in the size field rather than rejected
with `PayloadTooLarge`). -/
theorem C6_amended_new_total_size_mod (p : List Nat) :
    (new p).size = p.length % 65536 ∧ (new p).payload = p :=
  ⟨new_size p, new_payload p⟩


lemma drop5_cons (a b c d e : Nat) (l : List Nat) :
    (a :: b :: c :: d :: e :: l).drop 5 = l := rfl

lemma take3_cons (a b c d e : Nat) (l : List Nat) :
    (a :: b :: c :: d :: e :: l).take 3 = [a, b, c] := rfl

lemma getD3_cons (a b c d e z : Nat) (l : List Nat) :
    (a :: b :: c :: d :: e :: l).getD 3 z = d := rfl

lemma getD4_cons (a b c d e z : Nat) (l : List Nat) :
    (a :: b :: c :: d :: e :: l).getD 4 z = e := rfl

lemma getD_peel5 (a b c d e : Nat) (l : List Nat) (n : Nat) :
    (a :: b :: c :: d :: e :: l).getD (n + 5) 0 = l.getD n 0 := rfl

lemma new_header (p : List Nat) : (new p).header = magic := rfl

lemma u16_parse (n : Nat) (h : n ≤ 65535) : n % 256 + 256 * (n / 2 ^ 8 % 256) = n := by
  have h8 : (2 : Nat) ^ 8 = 256 := by norm_num
  rw [h8]
  omega

lemma getD_append_last (p : List Nat) (c : Nat) : (p ++ [c]).getD p.length 0 = c := by
  rw [List.getD_append_right p [c] 0 p.length (Nat.le_refl _), Nat.sub_self]
  rfl

lemma decode_as_bytes_new (p : List Nat) (h : p.length ≤ 65535) :
    decodeFrameT (as_bytes (new p)) p.length = Except.ok (new p) := by
  rw [as_bytes_new p h]
  simp only [magic, u16le, List.cons_append, List.nil_append]
  unfold decodeFrameT
  simp only [drop5_cons, take3_cons, new_header]
  rw [List.take_left' rfl, if_neg (by decide : ¬(magic ≠ [90, 119, 255])), getD3_cons, getD4_cons,
    u16_parse p.length h, if_neg (by simp : ¬(p.length ≠ p.length))]
  have hlen : (90 :: 119 :: 255 :: p.length % 256 :: p.length / 2 ^ 8 % 256 ::
      (p ++ [(new p).checksum])).length - 1 = p.length + 5 := by
    simp
  rw [hlen, getD_peel5, getD_append_last,
    if_neg (by simp : ¬((new p).checksum ≠ (new p).checksum))]


/-- Claim C2: for every payload of length at most 65535, decoding the
wire bytes of the encoded frame with the expected payload size equal to
the payload length succeeds and yields a frame whose payload is the
original payload. -/
theorem C2_roundtrip (p : List Nat) (h : p.length ≤ 65535) :
    decodeFrameT (as_bytes (new p)) p.length = Except.ok (new p) ∧ (new p).payload = p :=
  ⟨decode_as_bytes_new p h, new_payload p⟩

/-- Witness for C2 at the payload `[1, 2, 3]`. -/
theorem C2_roundtrip_witness :
    decodeFrameT (as_bytes (new [1, 2, 3])) 3 = Except.ok (new [1, 2, 3]) ∧
      (new [1, 2, 3]).payload = [1, 2, 3] :=
  C2_roundtrip [1, 2, 3] (by decide)

lemma read_frame_go_all_timeouts (n : Nat) : ∀ (m ps : Nat),
    read_frame_go ps m (List.replicate n ReadResult.timeout) = none := by
  induction n with
  | zero => intro m ps; rfl
  | succ k ih => intro m ps; rw [List.replicate_succ]; exact ih (m + 1) ps

/-- Claim C8: `read_frame` treats a timeout as non-fatal and retries the
same read (attempt count advancing by one), returns `Err(())` at once on
a non-timeout transport error, never returns while attempts keep timing
out, and for a transport that times out exactly twice and then delivers
a full valid frame it succeeds with the correctly decoded frame after
exactly 3 read attempts. -/
theorem C8_timeout_retry_fatal_abort (rest : List ReadResult) (ps n : Nat) :
    read_frame_go ps n (ReadResult.timeout :: rest) = read_frame_go ps (n + 1) rest ∧
    read_frame_go ps n (ReadResult.fatal :: rest) = some (Except.error (), n + 1) ∧
    read_frame_model (List.replicate n ReadResult.timeout) ps = none ∧
    read_frame_model
        [ReadResult.timeout, ReadResult.timeout,
          ReadResult.ok (as_bytes (new [1, 2, 3, 4, 5, 6, 7]))] 7 =
      some (Except.ok (new [1, 2, 3, 4, 5, 6, 7]), 3) :=
  ⟨rfl, rfl, read_frame_go_all_timeouts n 0 ps, rfl⟩

/-- Claim C10: every failure branch of `read_frame` — header mismatch,
size mismatch, checksum mismatch, and a non-timeout transport error —
returns the same unit error value `Err(())`: the unit-valued code is the
branch-tagged decode with every tag erased to `()`, and three concretely
distinct failure branches all yield the identical `Except.error ()`.
(The size-field `bincode::deserialize` failure branch is unreachable:
the 2-byte slice `frame[3..5]` always deserializes as a `u16`.) -/
theorem C10_all_failures_are_unit (frame : List Nat) (ps : Nat) :
    decodeFrame frame ps = (decodeFrameT frame ps).mapError (fun _ => ()) ∧
    decodeFrame [0, 0, 0, 1, 0, 9, 9] 1 = Except.error () ∧
    decodeFrameT [0, 0, 0, 1, 0, 9, 9] 1 = Except.error DecodeErr.badMagic ∧
    decodeFrame [0x5a, 0x77, 0xff, 3, 0, 1, 0] 1 = Except.error () ∧
    decodeFrameT [0x5a, 0x77, 0xff, 3, 0, 1, 0] 1 = Except.error DecodeErr.badSize ∧
    decodeFrame [0x5a, 0x77, 0xff, 1, 0, 5, 9] 1 = Except.error () ∧
    decodeFrameT [0x5a, 0x77, 0xff, 1, 0, 5, 9] 1 = Except.error DecodeErr.badChecksum ∧
    read_frame_go ps 0 [ReadResult.fatal] = some (Except.error (), 1) := by
  refine ⟨?_, rfl, rfl, rfl, rfl, rfl, rfl, rfl⟩
  unfold decodeFrame decodeFrameT
  dsimp only
  split_ifs <;> rfl


/-- Flip bit `b` of the byte at index `i` of a wire frame. -/
def flipBit (l : List Nat) (i b : Nat) : List Nat := l.set i (l.getD i 0 ^^^ 2 ^ b)

lemma set_peel5 (a b c d e v : Nat) (l : List Nat) (n : Nat) :
    (a :: b :: c :: d :: e :: l).set (n + 5) v = a :: b :: c :: d :: e :: l.set n v := rfl

lemma set3_cons (a b c d e v : Nat) (l : List Nat) :
    (a :: b :: c :: d :: e :: l).set 3 v = a :: b :: c :: v :: e :: l := rfl

lemma set4_cons (a b c d e v : Nat) (l : List Nat) :
    (a :: b :: c :: d :: e :: l).set 4 v = a :: b :: c :: d :: v :: l := rfl

lemma getD_peel5' (a b c d e : Nat) (l : List Nat) (n : Nat) :
    (a :: b :: c :: d :: e :: l).getD (n + 5) 0 = l.getD n 0 := rfl

lemma xor_ne_self (a m : Nat) (hm : m ≠ 0) : a ^^^ m ≠ a := by
  intro hEq
  apply hm
  calc m = a ^^^ (a ^^^ m) := (Nat.xor_cancel_left a m).symm
    _ = a ^^^ a := by rw [hEq]
    _ = 0 := Nat.xor_self a

lemma xor_lt_256 (x y : Nat) (hx : x < 256) (hy : y < 256) : x ^^^ y < 256 := by
  have hx8 : x < 2 ^ 8 := by norm_num; omega
  have hy8 : y < 2 ^ 8 := by norm_num; omega
  have h := @Nat.bitwise_lt bne x y 8 hx8 hy8
  have h256 : (2 : Nat) ^ 8 = 256 := by norm_num
  rw [h256] at h
  exact h

lemma two_pow_lt_256 (b : Nat) (hb : b < 8) : (2 : Nat) ^ b < 256 := by
  have h1 : (2 : Nat) ^ b ≤ 2 ^ 7 := Nat.pow_le_pow_right (by norm_num) (by omega)
  have h2 : (2 : Nat) ^ 7 = 128 := by norm_num
  omega

lemma foldl_xor_init (l : List Nat) (a : Nat) :
    l.foldl (fun sum b => sum ^^^ b) a = a ^^^ l.foldl (fun sum b => sum ^^^ b) 0 := by
  induction l generalizing a with
  | nil => simp
  | cons x t ih =>
    simp only [List.foldl_cons]
    rw [ih (a ^^^ x), ih (0 ^^^ x), Nat.zero_xor, Nat.xor_assoc]

lemma foldl_xor_append (l1 l2 : List Nat) :
    (l1 ++ l2).foldl (fun sum b => sum ^^^ b) 0 =
      l1.foldl (fun sum b => sum ^^^ b) 0 ^^^ l2.foldl (fun sum b => sum ^^^ b) 0 := by
  rw [List.foldl_append, foldl_xor_init]

lemma foldl_xor_set (l : List Nat) (j m : Nat) (hj : j < l.length) :
    (l.set j (l.getD j 0 ^^^ m)).foldl (fun sum b => sum ^^^ b) 0 =
      l.foldl (fun sum b => sum ^^^ b) 0 ^^^ m := by
  induction l generalizing j with
  | nil => simp at hj
  | cons x t ih =>
    cases j with
    | zero =>
      simp only [List.getD_cons_zero, List.set_cons_zero, List.foldl_cons]
      rw [foldl_xor_init, foldl_xor_init t (0 ^^^ x), Nat.zero_xor, Nat.zero_xor,
        Nat.xor_assoc, Nat.xor_assoc, Nat.xor_comm m]
    | succ k =>
      have hk : k < t.length := by simp at hj; omega
      simp only [List.getD_cons_succ, List.set_cons_succ, List.foldl_cons]
      rw [foldl_xor_init, foldl_xor_init t (0 ^^^ x), ih k hk]
      simp [Nat.xor_assoc]

lemma getD_append_last' (p : List Nat) (c : Nat) (n : Nat) (hn : n = p.length) :
    (p ++ [c]).getD n 0 = c := by
  subst hn
  rw [List.getD_append_right p [c] 0 p.length (Nat.le_refl _), Nat.sub_self]
  rfl


lemma decode_payload_flip (p : List Nat) (j b : Nat) (hp : p.length ≤ 65535) (_hb : b < 8)
    (hj : j < p.length) :
    decodeFrameT (flipBit (as_bytes (new p)) (j + 5) b) p.length =
      Except.error DecodeErr.badChecksum := by
  rw [as_bytes_new p hp]
  simp only [magic, u16le, List.cons_append, List.nil_append]
  unfold flipBit
  rw [getD_peel5', set_peel5, List.getD_append _ _ _ _ (by omega : j < p.length),
    List.set_append_left _ _ (by omega : j < p.length)]
  unfold decodeFrameT
  simp only [drop5_cons, take3_cons, new_header]
  rw [List.take_left' (by rw [List.length_set]),
    if_neg (by decide : ¬(magic ≠ [90, 119, 255])), getD3_cons, getD4_cons,
    u16_parse p.length hp, if_neg (by simp : ¬(p.length ≠ p.length))]
  have hlen : (90 :: 119 :: 255 :: p.length % 256 :: p.length / 2 ^ 8 % 256 ::
      (p.set j (p.getD j 0 ^^^ 2 ^ b) ++ [(new p).checksum])).length - 1 = p.length + 5 := by
    simp [List.length_set]
  rw [hlen, getD_peel5', getD_append_last' _ _ _ (by rw [List.length_set])]
  have hcc : (new (p.set j (p.getD j 0 ^^^ 2 ^ b))).checksum ≠ (new p).checksum := by
    rw [checksum_new _ (by rw [List.length_set]; exact hp), checksum_new p hp, List.length_set,
      foldl_xor_append, foldl_xor_append, foldl_xor_set p j _ hj, ← Nat.xor_assoc]
    exact xor_ne_self _ _ (Nat.two_pow_pos b).ne'
  rw [if_pos hcc]


lemma decode_size_flip_lo (p : List Nat) (b : Nat) (hp : p.length ≤ 65535) (_hb : b < 8) :
    decodeFrameT (flipBit (as_bytes (new p)) 3 b) p.length =
      Except.error DecodeErr.badSize := by
  rw [as_bytes_new p hp]
  simp only [magic, u16le, List.cons_append, List.nil_append]
  unfold flipBit
  rw [getD3_cons, set3_cons]
  unfold decodeFrameT
  simp only [drop5_cons, take3_cons, new_header]
  rw [List.take_left' rfl, if_neg (by decide : ¬(magic ≠ [90, 119, 255])),
    getD3_cons, getD4_cons]
  have hs0 : p.length % 256 < 256 := Nat.mod_lt _ (by norm_num)
  have hflip : p.length % 256 ^^^ 2 ^ b ≠ p.length % 256 :=
    xor_ne_self _ _ (Nat.two_pow_pos b).ne'
  have hcond : (p.length % 256 ^^^ 2 ^ b) + 256 * (p.length / 2 ^ 8 % 256) ≠ p.length := by
    intro hEq
    have h2 : (p.length % 256 ^^^ 2 ^ b) + 256 * (p.length / 2 ^ 8 % 256) =
        p.length % 256 + 256 * (p.length / 2 ^ 8 % 256) :=
      hEq.trans (u16_parse p.length hp).symm
    exact hflip (Nat.add_right_cancel h2)
  rw [if_pos hcond]

lemma decode_size_flip_hi (p : List Nat) (b : Nat) (hp : p.length ≤ 65535) (_hb : b < 8) :
    decodeFrameT (flipBit (as_bytes (new p)) 4 b) p.length =
      Except.error DecodeErr.badSize := by
  rw [as_bytes_new p hp]
  simp only [magic, u16le, List.cons_append, List.nil_append]
  unfold flipBit
  rw [getD4_cons, set4_cons]
  unfold decodeFrameT
  simp only [drop5_cons, take3_cons, new_header]
  rw [List.take_left' rfl, if_neg (by decide : ¬(magic ≠ [90, 119, 255])),
    getD3_cons, getD4_cons]
  have hflip : p.length / 2 ^ 8 % 256 ^^^ 2 ^ b ≠ p.length / 2 ^ 8 % 256 :=
    xor_ne_self _ _ (Nat.two_pow_pos b).ne'
  have hcond : p.length % 256 + 256 * (p.length / 2 ^ 8 % 256 ^^^ 2 ^ b) ≠ p.length := by
    intro hEq
    have h2 : p.length % 256 + 256 * (p.length / 2 ^ 8 % 256 ^^^ 2 ^ b) =
        p.length % 256 + 256 * (p.length / 2 ^ 8 % 256) :=
      hEq.trans (u16_parse p.length hp).symm
    exact hflip (Nat.eq_of_mul_eq_mul_left (by norm_num) (Nat.add_left_cancel h2))
  rw [if_pos hcond]

/-- Claim C5 as amended: flipping any single bit of the payload of a
valid wire frame makes decode fail in the checksum-mismatch branch
(`BadChecksum`), but flipping a bit of either size-field byte makes
decode fail in the earlier size-mismatch branch (`BadSize`), not
`BadChecksum`. -/
theorem C5_amended_flip_sensitivity (p : List Nat) (j b : Nat)
    (hp : p.length ≤ 65535) (hb : b < 8) :
    (j < p.length →
      decodeFrameT (flipBit (as_bytes (new p)) (j + 5) b) p.length =
        Except.error DecodeErr.badChecksum) ∧
    decodeFrameT (flipBit (as_bytes (new p)) 3 b) p.length = Except.error DecodeErr.badSize ∧
    decodeFrameT (flipBit (as_bytes (new p)) 4 b) p.length = Except.error DecodeErr.badSize :=
  ⟨fun hj => decode_payload_flip p j b hp hb hj,
   decode_size_flip_lo p b hp hb, decode_size_flip_hi p b hp hb⟩

/-- Witness for C5 (amended) at payload `[0x12, 0x34]`, payload bit
index `j = 1`, bit `b = 3`. -/
theorem C5_amended_flip_sensitivity_witness :
    decodeFrameT (flipBit (as_bytes (new [0x12, 0x34])) (1 + 5) 3) 2 =
        Except.error DecodeErr.badChecksum ∧
    decodeFrameT (flipBit (as_bytes (new [0x12, 0x34])) 3 3) 2 =
        Except.error DecodeErr.badSize ∧
    decodeFrameT (flipBit (as_bytes (new [0x12, 0x34])) 4 3) 2 =
        Except.error DecodeErr.badSize :=
  ⟨(C5_amended_flip_sensitivity [0x12, 0x34] 1 3 (by decide) (by decide)).1 (by decide),
   (C5_amended_flip_sensitivity [0x12, 0x34] 1 3 (by decide) (by decide)).2.1,
   (C5_amended_flip_sensitivity [0x12, 0x34] 1 3 (by decide) (by decide)).2.2⟩

/-- Counterexample for C5 as stated: the wire frame of payload `[1]` is
`[0x5a, 0x77, 0xff, 1, 0, 1, 0]`; flipping bit 1 of size-field byte 3
gives `[0x5a, 0x77, 0xff, 3, 0, 1, 0]`, and decode fails with the
size-mismatch error (`BadSize`), not `BadChecksum`. -/
theorem C5_counterexample_size_flip_is_bad_size :
    as_bytes (new [1]) = [0x5a, 0x77, 0xff, 1, 0, 1, 0] ∧
    flipBit (as_bytes (new [1])) 3 1 = [0x5a, 0x77, 0xff, 3, 0, 1, 0] ∧
    decodeFrameT [0x5a, 0x77, 0xff, 3, 0, 1, 0] 1 = Except.error DecodeErr.badSize ∧
    (Except.error DecodeErr.badSize : Except DecodeErr Frame) ≠
      Except.error DecodeErr.badChecksum := by
  refine ⟨rfl, rfl, rfl, ?_⟩
  intro hEq
  simp at hEq


/-- Claim C3 is false of the code (code bug): for the packing-example
payload bytes `0x12, 0x34, 0x56` (padded with one byte so the loop
guard `iter_frame < len - 3` admits the triplet), the first sample is
`0x412` as the spec says, but the second sample is `0x60`, not the
specified `((0x34 & 0xF0) >> 4) | (0x56 << 4) = 0x563`: the code
computes `(second & 0x0f) >> 4` (always zero — `0x0f` where `0xf0` was
intended) and `(third << 4) as u16` shifts in `u8`, discarding the high
nibble of `third` before widening. -/
theorem C3_code_bug_second_sample :
    (unpack [0x12, 0x34, 0x56, 0]).getD 0 0 = 0x412 ∧
    (unpack [0x12, 0x34, 0x56, 0]).getD 1 0 = 0x60 ∧
    (unpack [0x12, 0x34, 0x56, 0]).getD 1 0 ≠ ((0x34 &&& 0xF0) >>> 4) ||| (0x56 <<< 4) := by
  have h1 : (unpack [0x12, 0x34, 0x56, 0]).getD 0 0 = 0x412 := by
    rw [unpack, unpackGo]
    norm_num [point_cloud_3d_size]
    rw [unpackGo]
    norm_num [point_cloud_3d_size]
    decide
  have h2 : (unpack [0x12, 0x34, 0x56, 0]).getD 1 0 = 0x60 := by
    rw [unpack, unpackGo]
    norm_num [point_cloud_3d_size]
    rw [unpackGo]
    norm_num [point_cloud_3d_size]
    decide
  refine ⟨h1, h2, ?_⟩
  rw [h2]
  decide

/-- Claim C4 is false of the code (code bug, documented in the spec's
design notes): the loop advances the sample index by only 1 per triplet
— for payload `[1, 0, 2, 3, 0, 4, 0]` the second triplet's first sample
(3) overwrites the first triplet's second sample (32) at index 1, sample
2 holds 64 and sample 3 is never written; no `PayloadTooShort` error
exists, the loop merely stops. -/
theorem C4_code_bug_single_index_advance :
    (unpack [1, 0, 2, 3, 0, 4, 0]).getD 0 0 = 1 ∧
    (unpack [1, 0, 2, 3, 0, 4, 0]).getD 1 0 = 3 ∧
    (unpack [1, 0, 2, 3, 0, 4, 0]).getD 2 0 = 64 ∧
    (unpack [1, 0, 2, 3, 0, 4, 0]).getD 3 0 = 0 := by
  refine ⟨?_, ?_, ?_, ?_⟩ <;>
  · rw [unpack, unpackGo]
    norm_num [point_cloud_3d_size]
    rw [unpackGo]
    norm_num [point_cloud_3d_size]
    rw [unpackGo]
    norm_num [point_cloud_3d_size]
    try decide


lemma or_lt_4096 (x y : Nat) (hx : x < 4096) (hy : y < 4096) : x ||| y < 4096 := by
  have hx12 : x < 2 ^ 12 := by norm_num; omega
  have hy12 : y < 2 ^ 12 := by norm_num; omega
  have h := @Nat.bitwise_lt or x y 12 hx12 hy12
  have h4096 : (2 : Nat) ^ 12 = 4096 := by norm_num
  rw [h4096] at h
  exact h

lemma getD_lt_256 (l : List Nat) (i : Nat) (h : ∀ x ∈ l, x < 256) : l.getD i 0 < 256 := by
  by_cases hi : i < l.length
  · rw [List.getD_eq_getElem l 0 hi]
    exact h _ (List.getElem_mem hi)
  · rw [List.getD_eq_default l 0 (by omega)]
    norm_num

lemma sample_even_lt (a b : Nat) (ha : a < 256) : a ||| ((b &&& 0xf) <<< 8) < 4096 := by
  refine or_lt_4096 _ _ (by omega) ?_
  have h15 : b &&& 0xf ≤ 0xf := Nat.and_le_right
  rw [Nat.shiftLeft_eq]
  norm_num
  omega

lemma sample_odd_lt (b c : Nat) : ((b &&& 0xf) >>> 4) ||| ((c <<< 4) % 256) < 4096 := by
  refine or_lt_4096 _ _ ?_ ?_
  · have h15 : b &&& 0xf ≤ 0xf := Nat.and_le_right
    have hdiv : (b &&& 0xf) >>> 4 = (b &&& 0xf) / 2 ^ 4 := Nat.shiftRight_eq_div_pow _ _
    have := Nat.div_le_self (b &&& 0xf) (2 ^ 4)
    omega
  · have := Nat.mod_lt (c <<< 4) (y := 256) (by norm_num)
    omega

lemma unpackGo_le_aux (payload : List Nat) (hp : ∀ x ∈ payload, x < 256) :
    ∀ n pc i k, payload.length - i ≤ n → (∀ x ∈ pc, x ≤ 4095) →
      ∀ x ∈ unpackGo payload pc i k, x ≤ 4095 := by
  intro n
  induction n with
  | zero =>
    intro pc i k hn hpc x hx
    rw [unpackGo, dif_neg (by omega)] at hx
    exact hpc x hx
  | succ m ih =>
    intro pc i k hn hpc x hx
    rw [unpackGo] at hx
    by_cases hc : k < point_cloud_3d_size ∧ i < payload.length - 3
    · rw [dif_pos hc] at hx
      refine ih _ (i + 3) (k + 1) (by omega) ?_ x hx
      intro y hy
      rcases List.mem_or_eq_of_mem_set hy with hy1 | hy2
      · rcases List.mem_or_eq_of_mem_set hy1 with hy3 | hy4
        · exact hpc y hy3
        · have := sample_even_lt (payload.getD i 0) (payload.getD (i + 1) 0)
            (getD_lt_256 payload i hp)
          omega
      · have := sample_odd_lt (payload.getD (i + 1) 0) (payload.getD (i + 2) 0)
        omega
    · rw [dif_neg hc] at hx
      exact hpc x hx

/-- Claim C9: for a payload of the streaming loop's fixed size
(14401 bytes, all byte-valued), every element of the resulting
9600-sample point cloud is in `[0, 4095]` — samples written by the loop
because `first | ((second & 0xf) << 8) < 4096` and the (buggy) odd
sample is below 256, and elements never written because the array is
zero-initialised. -/
theorem C9_point_cloud_elements_le_4095 (payload : List Nat)
    (h1 : payload.length = 14401) (h2 : ∀ x ∈ payload, x < 256) :
    ∀ x ∈ unpack payload, x ≤ 4095 := by
  intro x hx
  refine unpackGo_le_aux payload h2 payload.length _ 0 0 (by omega) ?_ x hx
  intro y hy
  rw [List.eq_of_mem_replicate hy]
  omega

/-- Witness for C9 at the all-zero payload of length 14401. -/
theorem C9_point_cloud_elements_le_4095_witness :
    (List.replicate 14401 (0 : Nat)).length = 14401 ∧
    (∀ x ∈ List.replicate 14401 (0 : Nat), x < 256) ∧
    ∀ x ∈ unpack (List.replicate 14401 0), x ≤ 4095 :=
  ⟨by rw [List.length_replicate],
   fun x hx => by rw [List.eq_of_mem_replicate hx]; norm_num,
   C9_point_cloud_elements_le_4095 (List.replicate 14401 0)
     (by rw [List.length_replicate])
     (fun x hx => by rw [List.eq_of_mem_replicate hx]; norm_num)⟩

end RustyLidar
